import Mathlib

/-!
Verification development for the tarantism tuple-mapping layer
(field/model mapping and query construction over a positional tuple store).

Python values are embedded as the inductive `PyVal`; Python 2 byte strings
(`str`) are lists of byte values, unicode strings are Lean `String`s.
A `decimal.Decimal` value is represented by its canonical string
representation (the decimal library guarantees `Decimal(str(d)) == d`).
Machine integers are `Int` (Python 2 ints overflow into `long`
transparently, so no wrap-around is modelled).
-/

/-- A Python `datetime.datetime` value (year, month, day, hour, minute,
second, microsecond), the granularity the library stores. -/
structure PyDateTime where
  year : Nat
  month : Nat
  day : Nat
  hour : Nat
  minute : Nat
  second : Nat
  microsecond : Nat
deriving DecidableEq, Repr

/-- Range validity of a `datetime.datetime` (day-in-month subtleties are not
needed by any claim and are not modelled). -/
def PyDateTime.valid (d : PyDateTime) : Prop :=
  1 ≤ d.year ∧ d.year ≤ 9999 ∧ 1 ≤ d.month ∧ d.month ≤ 12 ∧
  1 ≤ d.day ∧ d.day ≤ 31 ∧ d.hour ≤ 23 ∧ d.minute ≤ 59 ∧
  d.second ≤ 59 ∧ d.microsecond ≤ 999999

instance (d : PyDateTime) : Decidable d.valid := by
  unfold PyDateTime.valid; infer_instance

/-- Embedded Python values.  `bytes` is a Python 2 `str` (a byte string),
`ustr` a `unicode` string, `pydecimal s` the `Decimal` whose canonical
string representation is `s`, `pydict` an association list in insertion
order (CPython 2 hash ordering is not observable by any claim below). -/
inductive PyVal where
  | none
  | pybool (b : Bool)
  | pyint (n : Int)
  | ustr (s : String)
  | bytes (bs : List Nat)
  | pylist (xs : List PyVal)
  | pytuple (xs : List PyVal)
  | pydict (kvs : List (PyVal × PyVal))
  | pydatetime (d : PyDateTime)
  | pydecimal (s : String)
deriving Repr

mutual

/-- Structural equality test on embedded Python values (used to compute the
overwrite semantics of `dict` keys). -/
def pyBeq : PyVal → PyVal → Bool
  | .none, .none => true
  | .pybool a, .pybool b => a == b
  | .pyint a, .pyint b => a == b
  | .ustr a, .ustr b => a == b
  | .bytes a, .bytes b => a == b
  | .pylist a, .pylist b => pyBeqList a b
  | .pytuple a, .pytuple b => pyBeqList a b
  | .pydict a, .pydict b => pyBeqPairs a b
  | .pydatetime a, .pydatetime b => a == b
  | .pydecimal a, .pydecimal b => a == b
  | _, _ => false

def pyBeqList : List PyVal → List PyVal → Bool
  | [], [] => true
  | x :: xs, y :: ys => pyBeq x y && pyBeqList xs ys
  | _, _ => false

def pyBeqPairs : List (PyVal × PyVal) → List (PyVal × PyVal) → Bool
  | [], [] => true
  | (k, v) :: xs, (k', v') :: ys => pyBeq k k' && pyBeq v v' && pyBeqPairs xs ys
  | _, _ => false

end

instance : BEq PyVal := ⟨pyBeq⟩

/-- Python truthiness (`bool(v)`), as used by the `if value:` guards in
`fields.py`.  A `Decimal` is falsy iff it is numerically zero; only the
canonical representations "0" and "-0" arise from the claims below. -/
def pyTruthy : PyVal → Bool
  | .none => false
  | .pybool b => b
  | .pyint n => n ≠ 0
  | .ustr s => s ≠ ""
  | .bytes bs => !bs.isEmpty
  | .pylist xs => !xs.isEmpty
  | .pytuple xs => !xs.isEmpty
  | .pydict kvs => !kvs.isEmpty
  | .pydatetime _ => true
  | .pydecimal s => s ≠ "0" && s ≠ "-0"

/-- Python exception classes distinguished by the source. -/
inductive PyExc where
  | validationError
  | valueError
  | typeError
  | unicodeError
deriving DecidableEq, Repr

/-- Association-list lookup standing for Python `dict.get` /
`key in dict`. -/
def assocGet {α : Type} (l : List (String × α)) (k : String) : Option α :=
  match l with
  | [] => Option.none
  | (k', v) :: rest => if k' = k then some v else assocGet rest k

/-!  Text/byte codecs.  Python 2 `unicode.encode('utf8')` / `str.decode('utf8')`
are modelled at codepoint granularity: UTF-8 is a bijection between codepoint
sequences and valid byte strings, and no claim observes individual bytes, so a
byte string produced from text is represented by the codepoint sequence. -/

/-- `unicode.encode('utf8')`, at codepoint granularity. -/
def encodeUtf8 (s : String) : List Nat :=
  s.data.map Char.toNat

/-- `str.decode('utf8')`, at codepoint granularity.  Invalid codes are not
modelled (decoding is only ever applied to encoded text in the claims). -/
def decodeUtf8 (bs : List Nat) : String :=
  ⟨bs.map Char.ofNat⟩

/-- Digits of `n` base 10, most significant first. -/
def natDigitsMsd (n : Nat) : List Nat :=
  (Nat.digits 10 n).reverse

/-- Zero-padded digit list of width `w` (what `strftime`'s zero-padded
numeric directives emit). -/
def padDigits (w n : Nat) : List Nat :=
  List.replicate (w - (natDigitsMsd n).length) 0 ++ natDigitsMsd n

/-- ASCII bytes of a zero-padded number. -/
def encNum (w n : Nat) : List Nat :=
  (padDigits w n).map (fun d => 48 + d)

/-- Numeric value of a most-significant-first digit list. -/
def digitsVal (l : List Nat) : Nat :=
  l.foldl (fun a d => 10 * a + d) 0

/-- `datetime.strftime('%Y-%m-%d %H:%M:%S.%f')`, the module's
`DEFAULT_DATETIME_FORMAT`, producing a Python 2 byte string. -/
def strftimeDefault (d : PyDateTime) : List Nat :=
  encNum 4 d.year ++ (45 :: (encNum 2 d.month ++ (45 :: (encNum 2 d.day ++
    (32 :: (encNum 2 d.hour ++ (58 :: (encNum 2 d.minute ++ (58 :: (encNum 2 d.second ++
    (46 :: encNum 6 d.microsecond)))))))))))

/-- Read exactly `k` ASCII digits from the front of a byte string. -/
def readFixed (k : Nat) (cs : List Nat) : Option (Nat × List Nat) :=
  let pre := cs.take k
  if pre.length = k && pre.all (fun c => 48 ≤ c && c ≤ 57) then
    some (digitsVal (pre.map (fun c => c - 48)), cs.drop k)
  else
    Option.none

/-- Consume one expected separator byte. -/
def expectSep (c : Nat) : List Nat → Option (List Nat)
  | c' :: rest => if c' = c then some rest else Option.none
  | [] => Option.none

/-- `datetime.strptime(value, '%Y-%m-%d %H:%M:%S.%f')`.  Each directive is
read at the zero-padded width `strftime` emits; the range checks `strptime`
performs are modelled by `PyDateTime.valid` (day-in-month consistency is
omitted, no claim depends on it). -/
def strptimeDefault (cs : List Nat) : Option PyDateTime := do
  let (y, cs) ← readFixed 4 cs
  let cs ← expectSep 45 cs
  let (mo, cs) ← readFixed 2 cs
  let cs ← expectSep 45 cs
  let (da, cs) ← readFixed 2 cs
  let cs ← expectSep 32 cs
  let (h, cs) ← readFixed 2 cs
  let cs ← expectSep 58 cs
  let (mi, cs) ← readFixed 2 cs
  let cs ← expectSep 58 cs
  let (s, cs) ← readFixed 2 cs
  let cs ← expectSep 46 cs
  let (us, cs) ← readFixed 6 cs
  if cs.isEmpty then
    let d : PyDateTime := ⟨y, mo, da, h, mi, s, us⟩
    if d.valid then some d else Option.none
  else
    Option.none

/-- Value of an all-digit byte string. -/
def digitBytesVal (ds : List Nat) : Option Nat :=
  if !ds.isEmpty && ds.all (fun c => 48 ≤ c && c ≤ 57) then
    some (digitsVal (ds.map (fun c => c - 48)))
  else
    Option.none

/-- Python `int(string)`: optional surrounding blanks, optional sign,
decimal digits; anything else raises `ValueError`. -/
def parseIntBytes (bs : List Nat) : Option Int :=
  let t := ((bs.dropWhile (· = 32)).reverse.dropWhile (· = 32)).reverse
  match t with
  | 43 :: ds => (digitBytesVal ds).map Int.ofNat
  | 45 :: ds => (digitBytesVal ds).map (fun n => -(Int.ofNat n))
  | ds => (digitBytesVal ds).map Int.ofNat

/-- Truncation of a decimal string toward zero, for `int(Decimal)`.
Plain `[-]digits[.digits]` forms are modelled; exponent forms do not occur
in any claim. -/
def decimalTrunc (s : String) : Option Int :=
  let bs := encodeUtf8 s
  let core := fun (ds : List Nat) => digitBytesVal (ds.takeWhile (· ≠ 46))
  match bs with
  | 45 :: ds => (core ds).map (fun n => -(Int.ofNat n))
  | ds => (core ds).map Int.ofNat

/-- Python 2 `int(value)` (and `long(value)`, which coincides with it on the
embedded values: Python 2 ints widen to `long` without overflow).
Strings that fail to parse raise `ValueError`; non-string non-numeric
arguments raise `TypeError`. -/
def pyIntOf : PyVal → Except PyExc Int
  | .pyint n => .ok n
  | .pybool b => .ok (if b then 1 else 0)
  | .ustr s =>
    match parseIntBytes (encodeUtf8 s) with
    | some n => .ok n
    | Option.none => .error .valueError
  | .bytes bs =>
    match parseIntBytes bs with
    | some n => .ok n
    | Option.none => .error .valueError
  | .pydecimal s =>
    match decimalTrunc s with
    | some n => .ok n
    | Option.none => .error .valueError
  | _ => .error .typeError

/-- `str(value)` for the values `DecimalField.to_db` meets.  The `repr` of
containers is not needed by any claim and is mapped to `typeError`. -/
def pyStrOf : PyVal → Except PyExc (List Nat)
  | .pydecimal s => .ok (encodeUtf8 s)
  | .pyint n => .ok (encodeUtf8 (toString n))
  | .pybool b => .ok (encodeUtf8 (if b then "True" else "False"))
  | .none => .ok (encodeUtf8 "None")
  | .bytes bs => .ok bs
  | .ustr s =>
    if s.data.all (fun c => c.toNat < 128) then .ok (encodeUtf8 s)
    else .error .unicodeError
  | _ => .error .typeError

/-- `decimal.Decimal(value)`: strings and ints construct a decimal (string
syntax validation is not modelled; a `pydecimal` stands for the value with
that canonical representation). -/
def pyDecimalOf : PyVal → Except PyExc PyVal
  | .ustr s => .ok (.pydecimal s)
  | .bytes bs => .ok (.pydecimal (decodeUtf8 bs))
  | .pyint n => .ok (.pydecimal (toString n))
  | .pydecimal s => .ok (.pydecimal s)
  | _ => .error .typeError

/-!  The `ujson` codec used by `JsonField`.  `dumps` serializes to a byte
string; mapping keys are coerced to their string form, tuples to arrays.
`loads` parses back; JSON strings decode to unicode and floats are outside
the embedded value universe (no claim uses them). -/

/-- JSON string escaping (quote and backslash; other escapes do not occur
in the claims). -/
def jsonEscape (bs : List Nat) : List Nat :=
  bs.flatMap (fun c => if c = 34 || c = 92 then [92, c] else [c])

/-- A JSON-quoted string literal. -/
def jsonQuote (bs : List Nat) : List Nat :=
  34 :: jsonEscape bs ++ [34]

/-- `ujson.dumps` key coercion: ints and strings become JSON string keys;
other key types raise. -/
def ujsonKey : PyVal → Except PyExc (List Nat)
  | .pyint n => .ok (jsonQuote (encodeUtf8 (toString n)))
  | .ustr s => .ok (jsonQuote (jsonEscape (encodeUtf8 s)))
  | .bytes bs => .ok (jsonQuote (jsonEscape bs))
  | .pybool b => .ok (jsonQuote (encodeUtf8 (if b then "true" else "false")))
  | _ => .error .typeError

mutual

/-- `ujson.dumps`, producing a Python 2 byte string. -/
def ujsonDumps : PyVal → Except PyExc (List Nat)
  | .none => .ok (encodeUtf8 "null")
  | .pybool b => .ok (encodeUtf8 (if b then "true" else "false"))
  | .pyint n => .ok (encodeUtf8 (toString n))
  | .ustr s => .ok (jsonQuote (encodeUtf8 s))
  | .bytes bs => .ok (jsonQuote bs)
  | .pylist xs => do pure (91 :: (← ujsonDumpsSeq xs) ++ [93])
  | .pytuple xs => do pure (91 :: (← ujsonDumpsSeq xs) ++ [93])
  | .pydict kvs => do pure (123 :: (← ujsonDumpsPairs kvs) ++ [125])
  | .pydatetime _ => .error .typeError
  | .pydecimal _ => .error .typeError

def ujsonDumpsSeq : List PyVal → Except PyExc (List Nat)
  | [] => .ok []
  | [x] => ujsonDumps x
  | x :: y :: rest => do pure ((← ujsonDumps x) ++ 44 :: (← ujsonDumpsSeq (y :: rest)))

def ujsonDumpsPairs : List (PyVal × PyVal) → Except PyExc (List Nat)
  | [] => .ok []
  | [(k, v)] => do pure ((← ujsonKey k) ++ 58 :: (← ujsonDumps v))
  | (k, v) :: p :: rest => do
    pure ((← ujsonKey k) ++ 58 :: (← ujsonDumps v) ++ 44 :: (← ujsonDumpsPairs (p :: rest)))

end

/-- Skip JSON whitespace. -/
def skipWs (cs : List Nat) : List Nat :=
  cs.dropWhile (fun c => c = 32 || c = 9 || c = 10 || c = 13)

/-- Parse a JSON string body after the opening quote. -/
def parseJsonStr : List Nat → Option (List Nat × List Nat)
  | [] => Option.none
  | 34 :: rest => some ([], rest)
  | 92 :: c :: rest => (parseJsonStr rest).map (fun p => (c :: p.1, p.2))
  | c :: rest =>
    if c = 92 then Option.none
    else (parseJsonStr rest).map (fun p => (c :: p.1, p.2))

/-- Parse a nonempty run of digits into a number (JSON integer body),
rejecting a following `.` or exponent (floats unmodelled). -/
def parseJsonNat (cs : List Nat) : Option (Nat × List Nat) :=
  let ds := cs.takeWhile (fun c => 48 ≤ c && c ≤ 57)
  let rest := cs.dropWhile (fun c => 48 ≤ c && c ≤ 57)
  match digitBytesVal ds with
  | some n =>
    match rest with
    | 46 :: _ => Option.none
    | 101 :: _ => Option.none
    | 69 :: _ => Option.none
    | _ => some (n, rest)
  | Option.none => Option.none

mutual

/-- Fuel-indexed JSON parser (`ujson.loads`); floats are rejected as they
are outside the embedded value universe. -/
def parseJson : Nat → List Nat → Option (PyVal × List Nat)
  | 0, _ => Option.none
  | fuel + 1, cs =>
    match skipWs cs with
    | 110 :: 117 :: 108 :: 108 :: rest => some (.none, rest)
    | 116 :: 114 :: 117 :: 101 :: rest => some (.pybool true, rest)
    | 102 :: 97 :: 108 :: 115 :: 101 :: rest => some (.pybool false, rest)
    | 34 :: rest => (parseJsonStr rest).map (fun p => (.ustr (decodeUtf8 p.1), p.2))
    | 91 :: rest =>
      (match skipWs rest with
       | 93 :: rest' => some (.pylist [], rest')
       | _ => (parseJsonItems fuel rest).map (fun p => (.pylist p.1, p.2)))
    | 123 :: rest =>
      (match skipWs rest with
       | 125 :: rest' => some (.pydict [], rest')
       | _ => (parseJsonMembers fuel rest).map (fun p => (.pydict p.1, p.2)))
    | 45 :: rest =>
      (parseJsonNat rest).map (fun p => (.pyint (-(Int.ofNat p.1)), p.2))
    | rest => (parseJsonNat rest).map (fun p => (.pyint (Int.ofNat p.1), p.2))

def parseJsonItems : Nat → List Nat → Option (List PyVal × List Nat)
  | 0, _ => Option.none
  | fuel + 1, cs => do
    let (v, rest) ← parseJson fuel cs
    match skipWs rest with
    | 44 :: rest' => (parseJsonItems fuel rest').map (fun p => (v :: p.1, p.2))
    | 93 :: rest' => some ([v], rest')
    | _ => Option.none

def parseJsonMembers : Nat → List Nat → Option (List (PyVal × PyVal) × List Nat)
  | 0, _ => Option.none
  | fuel + 1, cs => do
    let rest0 := skipWs cs
    match rest0 with
    | 34 :: rest1 => do
      let (k, rest2) ← parseJsonStr rest1
      match skipWs rest2 with
      | 58 :: rest3 => do
        let (v, rest4) ← parseJson fuel rest3
        match skipWs rest4 with
        | 44 :: rest5 =>
          (parseJsonMembers fuel rest5).map
            (fun p => ((PyVal.ustr (decodeUtf8 k), v) :: p.1, p.2))
        | 125 :: rest5 => some ([(PyVal.ustr (decodeUtf8 k), v)], rest5)
        | _ => Option.none
      | _ => Option.none
    | _ => Option.none

end

/-- `ujson.loads` of a byte string. -/
def ujsonLoads (bs : List Nat) : Except PyExc PyVal :=
  match parseJson (bs.length + 1) bs with
  | some (v, rest) => if (skipWs rest).isEmpty then .ok v else .error .valueError
  | Option.none => .error .valueError

/-!  The field type system of `tarantism/fields.py`.  Each field class is a
`FieldKind` constructor; the attributes set by `BaseField.__init__` live in
`BField`.  A `BytesField`/`StringField` regular expression is embedded as an
opaque match predicate (Python's `re` engine is an external library). -/

inductive FieldKind where
  | base
  | num32 (minValue maxValue : Int)
  | num64 (minValue maxValue : Int)
  | bytesField (regex : Option (PyVal → Bool)) (maxLength minLength : Option Nat)
  | stringField (regex : Option (PyVal → Bool)) (maxLength minLength : Option Nat)
  | datetimeField
  | decimalField
  | booleanField
  | jsonField
  | dictField
  | listField (elemKind : FieldKind) (elemRequired : Bool)
  | listAsDictField (elemKind : FieldKind) (elemRequired : Bool)

/-- `tarantool_index_type` per field class. -/
def tarantool_index_type : FieldKind → String
  | .num32 _ _ => "integer"
  | .num64 _ _ => "integer"
  | .stringField _ _ _ => "string"
  | .datetimeField => "string"
  | _ => "scalar"

/-- `tarantool_filter_type` per field class (the wire type tag passed to the
client's select). -/
def tarantool_filter_type : FieldKind → String
  | .num32 _ _ => "int"
  | .num64 _ _ => "long"
  | .stringField _ _ _ => "unicode"
  | .booleanField => "bool"
  | _ => "str"

/-- A field descriptor: the attributes `BaseField.__init__` stores.
Callable defaults that return a fixed value (`lambda: {}`, `lambda: []`)
are embedded by that value. -/
structure BField where
  kind : FieldKind
  required : Bool := false
  default : Option PyVal := Option.none
  primaryKey : Bool := false
  dbIndex : Option Nat := Option.none
  creationCounter : Nat := 0

/-- `BaseField.__init__`: stores the flags, forces `db_index = 0` for a
primary key, stamps the process-wide creation counter and bumps it. -/
def mkBField (kind : FieldKind) (required : Bool) (default : Option PyVal)
    (primaryKey : Bool) (dbIndex : Option Nat) (counter : Nat) : BField × Nat :=
  (⟨kind, required, default, primaryKey,
    if primaryKey then some 0 else dbIndex, counter⟩, counter + 1)

/-- `Num32Field.__init__` bound resolution: `min_value or self.MIN` (so a
falsy bound — absent or zero — falls back to the width's limit), then the
range guards that raise `ValueError`. -/
def mkNumBounds (lo hi : Int) (minV maxV : Option Int) : Except PyExc (Int × Int) :=
  let mn := match minV with
    | Option.none => lo
    | some v => if v = 0 then lo else v
  let mx := match maxV with
    | Option.none => hi
    | some v => if v = 0 then hi else v
  if mn < lo then .error .valueError
  else if hi < mx then .error .valueError
  else .ok (mn, mx)

def INT32_MIN : Int := -2147483648
def INT32_MAX : Int := 2147483647
def INT64_MIN : Int := -9223372036854775808
def INT64_MAX : Int := 9223372036854775807

/-- `BaseField.validate`: a required field rejects an empty/absent value. -/
def baseValidate (required : Bool) (v : PyVal) : Except PyExc Unit :=
  if required && !pyTruthy v then .error .validationError else .ok ()

/-- Length of a Python 2 string-like value (`basestring` instances only). -/
def strLen : PyVal → Option Nat
  | .ustr s => some s.length
  | .bytes bs => some bs.length
  | _ => Option.none

/-- `Num32Field.validate` after the base check: coerce (catching only
`ValueError`), then bounds. -/
def numValidateBody (mn mx : Int) (required : Bool) (v : PyVal) : Except PyExc Unit := do
  baseValidate required v
  match pyIntOf v with
  | .error .valueError => .error .validationError
  | .error e => .error e
  | .ok n =>
    if n < mn then .error .validationError
    else if mx < n then .error .validationError
    else .ok ()

/-- Max-length and regex tail of `BytesField.validate`. -/
def bytesTail (regex : Option (PyVal → Bool)) (maxL : Option Nat) (len : Nat)
    (v : PyVal) : Except PyExc Unit :=
  match maxL with
  | some m =>
    if m < len then .error .validationError
    else match regex with
      | some p => if p v then .ok () else .error .validationError
      | Option.none => .ok ()
  | Option.none =>
    match regex with
    | some p => if p v then .ok () else .error .validationError
    | Option.none => .ok ()

/-- `BytesField.validate` after the base check: `basestring` instance,
length window, regular expression. -/
def bytesValidateBody (regex : Option (PyVal → Bool)) (maxL minL : Option Nat)
    (required : Bool) (v : PyVal) : Except PyExc Unit := do
  baseValidate required v
  match strLen v with
  | Option.none => .error .validationError
  | some len =>
    match minL with
    | some m => if len < m then .error .validationError else bytesTail regex maxL len v
    | Option.none => bytesTail regex maxL len v

mutual

/-- `validate` dispatched over the field classes, faithful to
`tarantism/fields.py`.  `Num32Field.validate` catches only `ValueError`
from the coercion, so a `TypeError` (e.g. `int([])`) escapes uncaught. -/
def field_validate_kind : FieldKind → Bool → PyVal → Except PyExc Unit
  | .base, required, v => baseValidate required v
  | .num32 mn mx, required, v => numValidateBody mn mx required v
  | .num64 mn mx, required, v => numValidateBody mn mx required v
  | .bytesField regex maxL minL, required, v => bytesValidateBody regex maxL minL required v
  | .stringField regex maxL minL, required, v => bytesValidateBody regex maxL minL required v
  | .datetimeField, required, v => do
    baseValidate required v
    match v with
    | .pydatetime _ => .ok ()
    | _ => .error .validationError
  | .decimalField, required, v => baseValidate required v
  | .booleanField, required, v => baseValidate required v
  | .jsonField, required, v => do
    baseValidate required v
    match v with
    | .pydict _ => .ok ()
    | .pylist _ => .ok ()
    | .pytuple _ => .ok ()
    | _ => .error .validationError
  | .dictField, required, v => do
    baseValidate required v
    match v with
    | .pydict _ => .ok ()
    | _ => .error .validationError
  | .listField elemKind elemRequired, required, v => do
    baseValidate required v
    match v with
    | .pylist xs => listItemsValidate elemKind elemRequired xs
    | .pytuple xs => listItemsValidate elemKind elemRequired xs
    | _ => .error .validationError
  | .listAsDictField elemKind elemRequired, required, v => do
    baseValidate required v
    match v with
    | .pylist xs => listItemsValidate elemKind elemRequired xs
    | .pytuple xs => listItemsValidate elemKind elemRequired xs
    | _ => .error .validationError

/-- `ListField.validate`'s element loop: any exception from the element
field's validate is replaced by a `ValidationError`. -/
def listItemsValidate (elemKind : FieldKind) (elemRequired : Bool) :
    List PyVal → Except PyExc Unit
  | [] => .ok ()
  | x :: xs =>
    match field_validate_kind elemKind elemRequired x with
    | .error _ => .error .validationError
    | .ok () => listItemsValidate elemKind elemRequired xs

end

/-- `field.validate(value)` on a field descriptor. -/
def field_validate (f : BField) (v : PyVal) : Except PyExc Unit :=
  field_validate_kind f.kind f.required v

/-- Python dict insertion (`m[k] = v`): overwrite in place, keys keep their
first-insertion position. -/
def dictInsert (kvs : List (PyVal × PyVal)) (k v : PyVal) : List (PyVal × PyVal) :=
  match kvs with
  | [] => [(k, v)]
  | (k', v') :: rest =>
    if pyBeq k' k then (k', v) :: rest else (k', v') :: dictInsert rest k v

/-- `{i: True for i in value}` (the `ListAsDictField` storage form). -/
def dictFromKeys (xs : List PyVal) : List (PyVal × PyVal) :=
  xs.foldl (fun m i => dictInsert m i (.pybool true)) []

/-- `to_python` dispatched over the field classes, faithful to
`tarantism/fields.py`. -/
def field_to_python_kind : FieldKind → PyVal → Except PyExc PyVal
  | .base, v => .ok v
  | .num32 _ _, v => if pyTruthy v then (pyIntOf v).map .pyint else .ok v
  | .num64 _ _, v => if pyTruthy v then (pyIntOf v).map .pyint else .ok v
  | .bytesField _ _ _, v => .ok v
  | .stringField _ _ _, v =>
    if pyTruthy v then
      match v with
      | .bytes bs => .ok (.ustr (decodeUtf8 bs))
      | .ustr s =>
        -- Python 2 `unicode.decode('utf8')` round-trips through an
        -- implicit ascii encode; it succeeds only on ascii text.
        if s.data.all (fun c => c.toNat < 128) then .ok (.ustr s)
        else .error .unicodeError
      | _ => .error .typeError
    else .ok v
  | .datetimeField, v =>
    if pyTruthy v then
      match v with
      | .bytes bs =>
        match strptimeDefault bs with
        | some d => .ok (.pydatetime d)
        | Option.none => .error .valueError
      | .ustr s =>
        match strptimeDefault (encodeUtf8 s) with
        | some d => .ok (.pydatetime d)
        | Option.none => .error .valueError
      | _ => .error .typeError
    else .ok .none
  | .decimalField, v => pyDecimalOf v
  | .booleanField, v => .ok (.pybool (pyTruthy v))
  | .jsonField, v =>
    (match v with
     | .bytes bs => ujsonLoads bs
     | .ustr s => ujsonLoads (encodeUtf8 s)
     | _ => .error .typeError)
  | .dictField, v => .ok v
  | .listField _ _, v => .ok v
  | .listAsDictField _ _, v =>
    -- `value.keys()`
    (match v with
     | .pydict kvs => .ok (.pylist (kvs.map Prod.fst))
     | _ => .error .typeError)

/-- `to_db` dispatched over the field classes; classes without an override
inherit `BaseField.to_db`, which is `self.to_python`. -/
def field_to_db_kind : FieldKind → PyVal → Except PyExc PyVal
  | .base, v => field_to_python_kind .base v
  | .num32 mn mx, v => field_to_python_kind (.num32 mn mx) v
  | .num64 mn mx, v => field_to_python_kind (.num64 mn mx) v
  | .bytesField r mx mn, v => field_to_python_kind (.bytesField r mx mn) v
  | .stringField _ _ _, v =>
    if pyTruthy v then
      match v with
      | .ustr s => .ok (.bytes (encodeUtf8 s))
      | .bytes bs =>
        -- Python 2 `str.encode('utf8')` ascii-decodes first.
        if bs.all (· < 128) then .ok (.bytes bs) else .error .unicodeError
      | _ => .error .typeError
    else .ok v
  | .datetimeField, v =>
    if pyTruthy v then
      match v with
      | .pydatetime d => .ok (.bytes (strftimeDefault d))
      | _ => .error .typeError
    else .ok (.bytes [])
  | .decimalField, v => (pyStrOf v).map .bytes
  | .booleanField, v => .ok v
  | .jsonField, v => (ujsonDumps v).map .bytes
  | .dictField, v => .ok v
  | .listField _ _, v => .ok v
  | .listAsDictField _ _, v =>
    -- `{i: True for i in value}`; iteration over a dict yields its keys.
    (match v with
     | .pylist xs => .ok (.pydict (dictFromKeys xs))
     | .pytuple xs => .ok (.pydict (dictFromKeys xs))
     | .pydict kvs => .ok (.pydict (dictFromKeys (kvs.map Prod.fst)))
     | _ => .error .typeError)

/-- `field.to_python(value)` on a field descriptor. -/
def field_to_python (f : BField) (v : PyVal) : Except PyExc PyVal :=
  field_to_python_kind f.kind v

/-- `field.to_db(value)` on a field descriptor. -/
def field_to_db (f : BField) (v : PyVal) : Except PyExc PyVal :=
  field_to_db_kind f.kind v

/-!  Model schema layer (`tarantism/metaclasses.py`, `tarantism/models.py`).
`ModelMetaclass.__new__` collects the `BaseField` attributes into `_fields`.
The assignment of `_fields_ordered` is not part of the sources here (only
its uses are), so it is modelled from the spec. -/

/-- Constructor arguments of one field declaration in a class body. -/
structure FieldDecl where
  kind : FieldKind
  required : Bool := false
  default : Option PyVal := Option.none
  primaryKey : Bool := false
  dbIndex : Option Nat := Option.none

/-- Sequential field declaration: each declaration draws the next value of
the process-wide `BaseField.creation_counter`.  (A `ListField` first
constructs its element field and then decrements the counter, so its net
effect is the same single allocation; the element field is not a class
attribute.) -/
def declareFields (counter : Nat) :
    List (String × FieldDecl) → List (String × BField) × Nat
  | [] => ([], counter)
  | (name, d) :: rest =>
    let (f, counter') := mkBField d.kind d.required d.default d.primaryKey d.dbIndex counter
    let (fs, counter'') := declareFields counter' rest
    ((name, f) :: fs, counter'')

/-- A model class: `_fields` plus the `_meta` option the claims read. -/
structure ModelSchema where
  fields : List (String × BField)
  checkTupleLength : Bool := true

/-- Class definition at a given state of the process-wide counter. -/
def declareModel (decls : List (String × FieldDecl)) (counter : Nat)
    (checkTupleLength : Bool := true) : ModelSchema × Nat :=
  let (fs, counter') := declareFields counter decls
  ({ fields := fs, checkTupleLength := checkTupleLength }, counter')

/-- Modelled from the spec: the assignment of `_fields_ordered` is absent
from the sources (the metaclass shown stores only `_fields` and `_meta`);
per the spec, "`_fields_ordered` is computed by sorting on
`creation_order`". -/
def fields_ordered (m : ModelSchema) : List String :=
  (List.insertionSort
    (fun p q : String × BField => p.2.creationCounter ≤ q.2.creationCounter)
    m.fields).map Prod.fst

/-- `Model.field_name(field_no)`: the 1-based position into
`_fields_ordered`. -/
def field_name (m : ModelSchema) (fieldNo : Nat) : Option String :=
  (fields_ordered m).get? (fieldNo - 1)

/-- `Model._values_to_dict`: zip the ordered field names with a raw tuple
(extra values are dropped by `zip`). -/
def values_to_dict (m : ModelSchema) (values : List PyVal) :
    List (String × PyVal) :=
  List.zip (fields_ordered m) values

/-- `Model.validate`: for each declared field take `_data.get(name)`;
a non-`None` value runs the field's own validate, an absent (or `None`)
value of a required field raises `ValidationError`. -/
def model_validate (m : ModelSchema) (data : List (String × PyVal)) :
    Except PyExc Unit :=
  go m.fields
where
  go : List (String × BField) → Except PyExc Unit
    | [] => .ok ()
    | (name, f) :: rest =>
      let v := (assocGet data name).getD .none
      match v with
      | .none => if f.required then .error .validationError else go rest
      | v =>
        match field_validate f v with
        | .error e => .error e
        | .ok () => go rest

/-- The descriptor `__set__`: storing `None` into a field that declares a
default stores the default instead. -/
def applyDefault (f : BField) (v : PyVal) : PyVal :=
  match v with
  | .none => (f.default).getD .none
  | v => v

/-- Instance construction (`Model.__init__` after `reset`): every declared
field holds its supplied value, or its default, or `None`. -/
def mkInstanceData (m : ModelSchema) (supplied : List (String × PyVal)) :
    List (String × PyVal) :=
  m.fields.map (fun p => (p.1, applyDefault p.2 ((assocGet supplied p.1).getD .none)))

/-- `Model.from_dict`: decode every raw value through its field's
`to_python`, then construct the instance. -/
def from_dict (m : ModelSchema) (rawData : List (String × PyVal)) :
    Except PyExc (List (String × PyVal)) := do
  let decoded ← m.fields.filterMapM (fun p =>
    match assocGet rawData p.1 with
    | some v => (field_to_python p.2 v).map (fun pv => some (p.1, pv))
    | Option.none => pure Option.none)
  pure (mkInstanceData m decoded)

/-!  Error taxonomy (`tarantism/exceptions.py`, `tarantism/core.py`). -/

/-- Store-level errors after `parse_tarantool_exception`: the classified
ignorable kinds and the untouched original `DatabaseError`, each carrying
the original args (whose head is the numeric code). -/
inductive TError where
  | indexExists (args : List Nat)
  | spaceExists (args : List Nat)
  | ignorableError (args : List Nat)
  | databaseError (args : List Nat)
deriving DecidableEq, Repr

/-- `parse_tarantool_exception`: classify by the numeric code in
`e.args[0]`; anything else is returned unchanged. -/
def parse_tarantool_exception (args : List Nat) : TError :=
  match args.head? with
  | some 85 => .indexExists args
  | some 10 => .spaceExists args
  | some 32 => .ignorableError args
  | _ => .databaseError args

/-- `isinstance(e, IgnorableError)`: `IndexExists` and `SpaceExists` are
subclasses of `IgnorableError`. -/
def isIgnorable : TError → Bool
  | .indexExists _ => true
  | .spaceExists _ => true
  | .ignorableError _ => true
  | .databaseError _ => false

/-- `Connection.call`: a raw `DatabaseError` from the driver is re-raised
through `parse_tarantool_exception`.  The driver's reply is the input. -/
def connection_call {α : Type} (reply : Except (List Nat) α) : Except TError α :=
  match reply with
  | .ok a => .ok a
  | .error args => .error (parse_tarantool_exception args)

/-- `Model.create_space`: issue the space-create call and swallow
`IgnorableError` (hence all already-exists conditions). -/
def create_space (reply : Except (List Nat) Unit) : Except TError Unit :=
  match connection_call reply with
  | .ok _ => .ok ()
  | .error e => if isIgnorable e then .ok () else .error e

/-!  Index metadata (`Model.create_index`). -/

/-- One element of the flat `parts` list `create_index` builds:
`parts.extend([f.creation_counter, f.tarantool_index_type])`. -/
inductive PartElem where
  | position (n : Nat)
  | typeTag (s : String)
deriving DecidableEq, Repr

/-- The `parts` list of `Model.create_index`: for each requested field name,
its `creation_counter` followed by its index-type tag.  A name missing from
`_fields` makes `cls._fields.get(field_name)` return `None` and the
attribute access fail (modelled as `none`). -/
def create_index_parts (m : ModelSchema) (fieldNames : List String) :
    Option (List PartElem) :=
  match fieldNames with
  | [] => some []
  | name :: rest =>
    match assocGet m.fields name with
    | some f =>
      (create_index_parts m rest).map
        (fun parts => .position f.creationCounter :: .typeTag (tarantool_index_type f.kind) :: parts)
    | Option.none => Option.none

/-- The index parameters `create_index` assembles: defaulted name
(underscore-joined field names), defaulted type `tree`, and the parts. -/
structure IndexParams where
  indexName : String
  indexType : String
  parts : List PartElem
deriving Repr

/-- `Model.create_index` up to the store call: resolve defaults and build
the parts list. -/
def create_index_params (m : ModelSchema) (indexName : Option String)
    (indexType : Option String) (fieldNames : List String) :
    Option IndexParams :=
  (create_index_parts m fieldNames).map (fun parts =>
    { indexName := indexName.getD (String.intercalate "_" fieldNames)
      indexType := indexType.getD "tree"
      parts := parts })

/-- `Model.create_index` including the store call: unlike `create_space`
there is no `except IgnorableError` here, so a classified error propagates
to the caller.  `none` is the `AttributeError` crash on an unknown field
name. -/
def create_index (m : ModelSchema) (indexName : Option String)
    (indexType : Option String) (fieldNames : List String)
    (reply : Except (List Nat) Unit) : Option (Except TError IndexParams) :=
  (create_index_params m indexName indexType fieldNames).map (fun ps =>
    match connection_call reply with
    | .ok _ => .ok ps
    | .error e => .error e)

/-!  Update-diff construction (`Model._parse_fields`,
`Model._make_changes_struct`). -/

/-- `OPERATIONS_MAP`. -/
def operations_map : String → Option String
  | "add" => some "+"
  | "assign" => some "="
  | "and" => some "&"
  | "xor" => some "^"
  | "or" => some "|"
  | _ => Option.none

/-- Split a character list at the first occurrence of `__`. -/
def splitOnceUnderscores : List Char → Option (List Char × List Char)
  | [] => Option.none
  | '_' :: '_' :: rest => some ([], rest)
  | c :: rest => (splitOnceUnderscores rest).map (fun p => (c :: p.1, p.2))

/-- `key.split('__', 1)`: the field name before the first `__` and the
remainder (absent when no `__` occurs). -/
def splitModifier (key : String) : String × Option String :=
  match splitOnceUnderscores key.data with
  | some (pre, post) => (⟨pre⟩, some ⟨post⟩)
  | Option.none => (key, Option.none)

/-- Python dict store `m[k] = v` on a `String`-keyed association list. -/
def assocPut {α : Type} (l : List (String × α)) (k : String) (v : α) :
    List (String × α) :=
  match l with
  | [] => [(k, v)]
  | (k', v') :: rest => if k' = k then (k, v) :: rest else (k', v') :: assocPut rest k v

/-- `Model._parse_fields`: map each `field__modifier` key (default modifier
`assign`) to its operation symbol; an unknown modifier raises `ValueError`.
Later duplicates of the same field name overwrite earlier ones, as in the
dict the source builds. -/
def parse_fields (data : List (String × PyVal)) :
    Except PyExc (List (String × (String × PyVal))) :=
  go data []
where
  go : List (String × PyVal) → List (String × (String × PyVal)) →
      Except PyExc (List (String × (String × PyVal)))
    | [], acc => .ok acc
    | (key, value) :: rest, acc =>
      let (fieldName, modifier) := splitModifier key
      let modifier := modifier.getD "assign"
      match operations_map modifier with
      | some op => go rest (assocPut acc fieldName (op, value))
      | Option.none => .error .valueError

/-- The `FIXME` coercion in `_make_changes_struct`: a unicode value is
passed through `str()` (an ascii encode; non-ascii text would raise, which
no claim exercises). -/
def coerceUpdateValue : PyVal → PyVal
  | .ustr s => .bytes (encodeUtf8 s)
  | v => v

/-- `Model._make_changes_struct`: walk `_fields_ordered` with
`enumerate` (0-based) and emit `(operation, field_number, value)` for each
field that has a pending operation. -/
def make_changes_struct (m : ModelSchema) (data : List (String × PyVal)) :
    Except PyExc (List (String × Nat × PyVal)) := do
  let fieldOperationMap ← parse_fields data
  pure (((fields_ordered m).enum).filterMap (fun p =>
    (assocGet fieldOperationMap p.2).map
      (fun op => (op.1, p.1, coerceUpdateValue op.2))))

/-!  Query layer (`tarantism/queryset.py`). -/

/-- Query-layer exceptions. -/
inductive QErr where
  | fieldErrorUnknownField (fieldName : String)
  | fieldErrorNotIndexed (fieldName : String)
  | fieldErrorExtraFields (extras : List PyVal)
  | pyError (e : PyExc)
  | doesNotExist
  | multipleObjectsReturned
deriving Repr

/-- Which `QErr`s are the `FieldError` exception class. -/
def QErr.isFieldError : QErr → Bool
  | .fieldErrorUnknownField _ => true
  | .fieldErrorNotIndexed _ => true
  | .fieldErrorExtraFields _ => true
  | _ => false

/-- `Model._get_tarantool_filter_types`: the wire type tag of every field
in `_fields_ordered` order. -/
def get_tarantool_filter_types (m : ModelSchema) : List String :=
  (fields_ordered m).filterMap (fun name =>
    (assocGet m.fields name).map (fun f => tarantool_filter_type f.kind))

/-- The select request `QuerySet.filter` issues. -/
structure SelectRequest where
  value : PyVal
  index : Nat
  fieldTypes : List String
deriving Repr

/-- `QuerySet.to_python`: convert each raw tuple, enforcing the declared
field count when the model's `check_tuple_length` option (default on) is
enabled; the `FieldError` names the values past the declared count. -/
def queryset_to_python (m : ModelSchema) :
    List (List PyVal) → Except QErr (List (List (String × PyVal)))
  | [] => .ok []
  | values :: rest =>
    let n := (fields_ordered m).length
    if m.checkTupleLength && values.length != n then
      .error (.fieldErrorExtraFields (values.drop n))
    else
      match from_dict m (values_to_dict m values) with
      | .error e => .error (.pyError e)
      | .ok inst =>
        match queryset_to_python m rest with
        | .error e => .error e
        | .ok insts => .ok (inst :: insts)

/-- `QuerySet.filter(field=value)` up to the store select: unknown field
and unindexed field raise `FieldError`; otherwise the value is validated
and the select request scoped to the field's index is built. -/
def queryset_filter_request (m : ModelSchema) (fieldName : String) (value : PyVal) :
    Except QErr SelectRequest :=
  match assocGet m.fields fieldName with
  | Option.none => .error (.fieldErrorUnknownField fieldName)
  | some field =>
    match field.dbIndex with
    | Option.none => .error (.fieldErrorNotIndexed fieldName)
    | some idx =>
      match field_validate field value with
      | .error e => .error (.pyError e)
      | .ok () => .ok ⟨value, idx, get_tarantool_filter_types m⟩

/-- `QuerySet.filter` including the conversion of the store's reply. -/
def queryset_filter (m : ModelSchema) (fieldName : String) (value : PyVal)
    (reply : SelectRequest → List (List PyVal)) :
    Except QErr (List (List (String × PyVal))) :=
  match queryset_filter_request m fieldName value with
  | .error e => .error e
  | .ok req => queryset_to_python m (reply req)

/-- The cardinality check of `QuerySet.get` on the filtered list. -/
def queryset_get_of_list {α : Type} (modelList : List α) : Except QErr α :=
  if modelList.isEmpty then .error .doesNotExist
  else if 1 < modelList.length then .error .multipleObjectsReturned
  else
    match modelList.head? with
    | some x => .ok x
    | Option.none => .error .doesNotExist

/-- `QuerySet.get(**kwargs)`: filter, then require exactly one result. -/
def queryset_get (m : ModelSchema) (fieldName : String) (value : PyVal)
    (reply : SelectRequest → List (List PyVal)) :
    Except QErr (List (String × PyVal)) :=
  match queryset_filter m fieldName value reply with
  | .error e => .error e
  | .ok modelList => queryset_get_of_list modelList

/-!  Concrete schemas used by witnesses and counterexamples. -/

/-- First model declared in a fresh process: two base fields, counters 1, 2. -/
def demoModelA : ModelSchema × Nat :=
  declareModel [("a", { kind := .base }), ("b", { kind := .base })] 1

/-- Second model declared in the same process: one integer field whose
creation counter continues at 3. -/
def demoModelX : ModelSchema :=
  (declareModel [("x", { kind := .num32 INT32_MIN INT32_MAX })] demoModelA.2).1

/-- A model with a single non-required 32-bit numeric field. -/
def demoModelNum : ModelSchema :=
  (declareModel [("n", { kind := .num32 INT32_MIN INT32_MAX })] 1).1

/-- A model with a single primary-key 32-bit numeric field. -/
def demoModelPk : ModelSchema :=
  (declareModel [("k", { kind := .num32 INT32_MIN INT32_MAX, primaryKey := true })] 1).1

/-- Does a query-layer result raise `FieldError`? -/
def exceptIsFieldError {α : Type} : Except QErr α → Bool
  | .error e => e.isFieldError
  | .ok _ => false

/-- C2.  The claim says `create_index` pairs each named field with its
1-based position in `_fields_ordered`.  The code pairs it with the
process-global `creation_counter` instead: for the second model declared in
a process (here `demoModelX`, whose only field `x` has counter 3 but tuple
position 1) the emitted part references position 3, not 1, so the parts
disagree with the model's own `1..N` layout — the positional contract the
spec states, and what `run.py`'s second model (`CardData`) relies on. -/
theorem C2_create_index_uses_global_counter :
    create_index_parts demoModelX ["x"] =
      some [.position 3, .typeTag "integer"] ∧
    field_name demoModelX 1 = some "x" ∧
    fields_ordered demoModelX = ["x"] ∧
    (3 : Nat) ≠ 1 :=
  ⟨rfl, rfl, rfl, by decide⟩

/-- C6.  `Model.validate` on a model holding a present value that violates
its field's constraint (`[]` on a numeric field) raises `TypeError`, not
`ValidationError`: `Num32Field.validate` catches only `ValueError` from the
coercion, so `int([])`'s `TypeError` escapes — against the claim (and the
spec's §7, which files type-coercion failure under `ValidationError`). -/
theorem C6_validate_typeerror_leak :
    model_validate demoModelNum [("n", .pylist [])] = .error .typeError ∧
    PyExc.typeError ≠ PyExc.validationError :=
  ⟨rfl, by decide⟩

/-- C5 counterexample.  The second identical `create_index` call observes
the store's "already exists" reply (code 85); `Model.create_index` has no
`except IgnorableError`, so the classified `IndexExists` propagates to the
caller (which is why `run.py` wraps the calls in `except IndexExists`),
while `create_space` does swallow its already-exists reply (code 10). -/
theorem C5_counterexample :
    create_space (Except.error [10]) = .ok () ∧
    create_index demoModelX (some "id") (some "tree") ["x"] (Except.error [85]) =
      some (Except.error (.indexExists [85])) :=
  ⟨rfl, rfl⟩

/-- C5 amended: `create_space` never raises exactly when the store reply is
classified ignorable (already-exists and friends) — so a second identical
call never raises; `create_index` propagates every store error unchanged,
so its second call raises `IndexExists` to the caller. -/
theorem C5_amended (args : List Nat) :
    (create_space (Except.error args) = .ok () ↔
      isIgnorable (parse_tarantool_exception args) = true) ∧
    create_space (Except.ok ()) = .ok () ∧
    (∀ m iname itype fnames ps,
      create_index_params m iname itype fnames = some ps →
      create_index m iname itype fnames (Except.error args) =
        some (Except.error (parse_tarantool_exception args)) ∧
      create_index m iname itype fnames (Except.ok ()) = some (Except.ok ps)) := by
  refine ⟨?_, rfl, ?_⟩
  · unfold create_space connection_call
    cases h : isIgnorable (parse_tarantool_exception args) <;> simp [h]
  · intro m iname itype fnames ps hp
    unfold create_index connection_call
    rw [hp]
    simp

/-- C6 would also need: a present violating value yields `ValidationError`;
the leak above refutes that, so C6 is settled as a code bug (see
`C6_validate_typeerror_leak`).  C10: constructing any field with
`primary_key=True` forces `db_index = 0`, discarding the caller-supplied
index, and such a field is accepted by `filter` (no `FieldError`). -/
theorem C10_primary_key_indexed (kind : FieldKind) (required : Bool)
    (default : Option PyVal) (dbIndexArg : Option Nat) (counter : Nat)
    (m : ModelSchema) (name : String) (v : PyVal)
    (hf : assocGet m.fields name =
      some (mkBField kind required default true dbIndexArg counter).1) :
    (mkBField kind required default true dbIndexArg counter).1.dbIndex = some 0 ∧
    exceptIsFieldError (queryset_filter_request m name v) = false := by
  constructor
  · simp [mkBField]
  · unfold queryset_filter_request
    rw [hf]
    simp only [mkBField]
    cases hfv : field_validate
        ⟨kind, required, default, true, some 0, counter⟩ v <;>
      simp [hfv, exceptIsFieldError, QErr.isFieldError]

/-- C10 witness: a primary-key field constructed with `db_index=7` still
gets index 0 and passes the indexed-field check of `filter`. -/
theorem C10_witness :
    (mkBField (.num32 INT32_MIN INT32_MAX) false Option.none true (some 7) 1).1.dbIndex =
      some 0 ∧
    exceptIsFieldError (queryset_filter_request
      ⟨[("k", (mkBField (.num32 INT32_MIN INT32_MAX) false Option.none true (some 7) 1).1)], true⟩
      "k" (.pyint 5)) = false :=
  C10_primary_key_indexed (.num32 INT32_MIN INT32_MAX) false Option.none (some 7) 1
    ⟨[("k", (mkBField (.num32 INT32_MIN INT32_MAX) false Option.none true (some 7) 1).1)], true⟩
    "k" (.pyint 5) rfl

/-- C8.  `get()` returns the unique instance for exactly one converted row,
`DoesNotExist` for zero, `MultipleObjectsReturned` for two or more. -/
theorem C8_get_cardinality (m : ModelSchema) (fieldName : String) (value : PyVal)
    (reply : SelectRequest → List (List PyVal))
    (l : List (List (String × PyVal)))
    (hf : queryset_filter m fieldName value reply = .ok l) :
    (l = [] → queryset_get m fieldName value reply = .error .doesNotExist) ∧
    (∀ x, l = [x] → queryset_get m fieldName value reply = .ok x) ∧
    (2 ≤ l.length → queryset_get m fieldName value reply = .error .multipleObjectsReturned) := by
  unfold queryset_get
  rw [hf]
  refine ⟨?_, ?_, ?_⟩
  · rintro rfl; rfl
  · rintro x rfl; rfl
  · intro h2
    match l, h2 with
    | x :: y :: rest, _ => simp [queryset_get_of_list]

/-- C8 witness: a one-field primary-key model with store replies of one,
zero and two rows. -/
theorem C8_witness :
    queryset_get demoModelPk "k" (.pyint 5) (fun _ => [[.pyint 5]]) =
      .ok [("k", .pyint 5)] ∧
    queryset_get demoModelPk "k" (.pyint 5) (fun _ => []) = .error .doesNotExist ∧
    queryset_get demoModelPk "k" (.pyint 5) (fun _ => [[.pyint 5], [.pyint 6]]) =
      .error .multipleObjectsReturned :=
  ⟨(C8_get_cardinality demoModelPk "k" (.pyint 5) (fun _ => [[.pyint 5]])
      [[("k", .pyint 5)]] rfl).2.1 [("k", .pyint 5)] rfl,
   (C8_get_cardinality demoModelPk "k" (.pyint 5) (fun _ => []) [] rfl).1 rfl,
   (C8_get_cardinality demoModelPk "k" (.pyint 5) (fun _ => [[.pyint 5], [.pyint 6]])
      [[("k", .pyint 5)], [("k", .pyint 6)]] rfl).2.2 (by decide)⟩

/-- C5 witness: code 85 is swallowed by `create_space`; `create_index`
succeeds when the store reply is ok. -/
theorem C5_amended_witness :
    create_space (Except.error [85]) = .ok () ∧
    create_index demoModelX (some "id") (some "tree") ["x"] (Except.ok ()) =
      some (Except.ok ⟨"id", "tree", [.position 3, .typeTag "integer"]⟩) :=
  ⟨(C5_amended [85]).1.mpr rfl,
   ((C5_amended [85]).2.2 demoModelX (some "id") (some "tree") ["x"]
      ⟨"id", "tree", [.position 3, .typeTag "integer"]⟩ rfl).2⟩

/-- C7.  `filter(field=value)` raises `FieldError` exactly for an unknown
field name or a known field without `db_index`; for an indexed field whose
value passes the field's validate, the built select request is scoped to
that field's index and carries the model's wire types. -/
theorem C7_filter_field_errors (m : ModelSchema) (name : String) (v : PyVal) :
    (exceptIsFieldError (queryset_filter_request m name v) = true ↔
      assocGet m.fields name = Option.none ∨
      (∃ f, assocGet m.fields name = some f ∧ f.dbIndex = Option.none)) ∧
    (∀ f idx, assocGet m.fields name = some f → f.dbIndex = some idx →
      field_validate f v = .ok () →
      queryset_filter_request m name v =
        .ok ⟨v, idx, get_tarantool_filter_types m⟩) := by
  constructor
  · unfold queryset_filter_request
    cases hl : assocGet m.fields name with
    | none => simp [exceptIsFieldError, QErr.isFieldError]
    | some f =>
      cases hdb : f.dbIndex with
      | none => simp [hdb, exceptIsFieldError, QErr.isFieldError]
      | some idx =>
        cases hfv : field_validate f v <;>
          simp [hdb, hfv, exceptIsFieldError, QErr.isFieldError]
  · intro f idx hl hdb hv
    unfold queryset_filter_request
    rw [hl]
    simp only [hdb, hv]

/-- C7 witness: unknown field, unindexed field, and a successful indexed
filter on the primary-key model. -/
theorem C7_witness :
    exceptIsFieldError (queryset_filter_request demoModelNum "absent" (.pyint 1)) = true ∧
    exceptIsFieldError (queryset_filter_request demoModelNum "n" (.pyint 1)) = true ∧
    queryset_filter_request demoModelPk "k" (.pyint 5) =
      .ok ⟨.pyint 5, 0, ["int"]⟩ :=
  ⟨(C7_filter_field_errors demoModelNum "absent" (.pyint 1)).1.mpr (Or.inl rfl),
   (C7_filter_field_errors demoModelNum "n" (.pyint 1)).1.mpr
     (Or.inr ⟨_, rfl, rfl⟩),
   (C7_filter_field_errors demoModelPk "k" (.pyint 5)).2 _ 0 rfl rfl rfl⟩

/-- Zipping truncates at the left list's length. -/
theorem zip_take_len {α β : Type} :
    ∀ (l : List α) (r : List β), l.zip (r.take l.length) = l.zip r
  | [], _ => by simp
  | _ :: _, [] => by simp
  | a :: l, b :: r => by
    simp only [List.length_cons, List.take_succ_cons, List.zip_cons_cons]
    rw [zip_take_len l r]

/-- `demoModelNum` with the shape check disabled. -/
def demoModelNumLax : ModelSchema :=
  ⟨demoModelNum.fields, false⟩

/-- C9.  With the model's shape-check option on (the default), converting a
raw tuple longer than the declared field count raises `FieldError` naming
the extra trailing values; with the option off, every tuple converts
exactly as its truncation to the declared field count does (the extras are
ignored). -/
theorem C9_tuple_length_check :
    (∀ (m : ModelSchema) (row : List PyVal) rows, m.checkTupleLength = true →
      (fields_ordered m).length < row.length →
      queryset_to_python m (row :: rows) =
        .error (.fieldErrorExtraFields (row.drop (fields_ordered m).length))) ∧
    (∀ (m : ModelSchema) rows, m.checkTupleLength = false →
      queryset_to_python m rows =
        queryset_to_python m (rows.map (fun r => r.take (fields_ordered m).length))) := by
  constructor
  · intro m row rows hc hl
    have hne : row.length ≠ (fields_ordered m).length := Nat.ne_of_gt hl
    simp [queryset_to_python, hc, hne]
  · intro m rows hc
    induction rows with
    | nil => rfl
    | cons row rest ih =>
      have hv : values_to_dict m (row.take (fields_ordered m).length) =
          values_to_dict m row := by
        unfold values_to_dict
        exact zip_take_len _ _
      simp only [List.map_cons, queryset_to_python, hc, Bool.false_and, if_neg,
        Bool.false_eq_true, not_false_eq_true, hv]
      rw [ih]

/-- C9 witness: a one-field model; a two-value tuple errors with the check
on and converts (dropping the extra) with the check off. -/
theorem C9_witness :
    queryset_to_python demoModelNum [[.pyint 5, .pyint 6]] =
      .error (.fieldErrorExtraFields [.pyint 6]) ∧
    queryset_to_python demoModelNumLax [[.pyint 5, .pyint 6]] =
      queryset_to_python demoModelNumLax [[.pyint 5]] :=
  ⟨C9_tuple_length_check.1 demoModelNum [.pyint 5, .pyint 6] [] rfl (by decide),
   C9_tuple_length_check.2 demoModelNumLax [[.pyint 5, .pyint 6]] rfl⟩

/-- C4 counterexample.  On a one-field model, `update(n=5)` submits the
instruction `('=', 0, 5)`: `_make_changes_struct` enumerates
`_fields_ordered` from 0, while the claim says the emitted position is the
field's 1-based tuple position (here 1). -/
theorem C4_counterexample :
    make_changes_struct demoModelNum [("n", .pyint 5)] =
      .ok [("=", 0, .pyint 5)] ∧
    field_name demoModelNum 1 = some "n" ∧
    (0 : Nat) ≠ 1 :=
  ⟨rfl, rfl, by decide⟩

/-- Projecting the positions out of the emitted instruction list gives the
positions of exactly the pending fields. -/
theorem filterMap_changes_positions (fmap : List (String × (String × PyVal))) :
    ∀ (l : List (Nat × String)),
      ((l.filterMap (fun p => (assocGet fmap p.2).map
          (fun op => (op.1, p.1, coerceUpdateValue op.2)))).map (fun c => c.2.1)) =
      (l.filter (fun p => (assocGet fmap p.2).isSome)).map Prod.fst
  | [] => rfl
  | p :: rest => by
    cases h : assocGet fmap p.2 <;>
      simp [List.filterMap_cons, List.filter_cons, h,
        filterMap_changes_positions fmap rest]

/-- `_parse_fields` (via its worker) fails exactly when some key's modifier
(the part after the first `__`, defaulting to `assign`) is outside
`OPERATIONS_MAP`, and the failure is always the generic `ValueError`. -/
theorem parse_fields_go_error_iff (data : List (String × PyVal)) :
    ∀ acc,
      ((∃ e, parse_fields.go data acc = .error e) ↔
        ∃ p ∈ data,
          operations_map ((splitModifier p.1).2.getD "assign") = Option.none) ∧
      (∀ e, parse_fields.go data acc = .error e → e = .valueError) := by
  induction data with
  | nil =>
    intro acc
    constructor
    · simp [parse_fields.go]
    · intro e he
      simp [parse_fields.go] at he
  | cons p rest ih =>
    intro acc
    obtain ⟨k, v⟩ := p
    constructor
    · constructor
      · rintro ⟨e, he⟩
        cases hop : operations_map ((splitModifier k).2.getD "assign") with
        | none => exact ⟨(k, v), List.mem_cons_self _ _, hop⟩
        | some op =>
          have he' : parse_fields.go rest
              (assocPut acc (splitModifier k).1 (op, v)) = .error e := by
            simpa only [parse_fields.go, hop] using he
          obtain ⟨q, hq, hqe⟩ := (ih _).1.mp ⟨e, he'⟩
          exact ⟨q, List.mem_cons_of_mem _ hq, hqe⟩
      · rintro ⟨q, hq, hqe⟩
        rcases List.mem_cons.mp hq with h1 | h2
        · subst h1
          exact ⟨.valueError, by simp only [parse_fields.go, hqe]⟩
        · cases hop : operations_map ((splitModifier k).2.getD "assign") with
          | none => exact ⟨.valueError, by simp only [parse_fields.go, hop]⟩
          | some op =>
            obtain ⟨e, he⟩ :=
              (ih (assocPut acc (splitModifier k).1 (op, v))).1.mpr ⟨q, h2, hqe⟩
            exact ⟨e, by simp only [parse_fields.go, hop]; exact he⟩
    · intro e he
      cases hop : operations_map ((splitModifier k).2.getD "assign") with
      | none =>
        have h2 : Except.error (ε := PyExc) (α := List (String × (String × PyVal)))
            .valueError = .error e := by
          simpa only [parse_fields.go, hop] using he
        have := Except.error.inj h2
        exact this.symm
      | some op =>
        exact (ih (assocPut acc (splitModifier k).1 (op, v))).2 e
          (by simpa only [parse_fields.go, hop] using he)

/-- C4 amended.  The instruction list `update(**kwargs)` submits is as the
claim says except that the emitted position is the field's 0-based index in
`_fields_ordered` (Python's `enumerate` starts at 0), not the 1-based tuple
position: keys parse as `field__modifier` with modifier in
{assign, add, and, xor, or} (default `assign`), an unknown modifier raises
the generic `ValueError`, and one `(operation, position, value)` triple is
emitted for exactly the declared fields with a pending operation, in
`_fields_ordered` order. -/
theorem C4_amended (m : ModelSchema) (data : List (String × PyVal)) :
    (make_changes_struct m data = .error .valueError ↔
      ∃ p ∈ data,
        operations_map ((splitModifier p.1).2.getD "assign") = Option.none) ∧
    (∀ fmap changes, parse_fields data = .ok fmap →
      make_changes_struct m data = .ok changes →
      (changes.map (fun c => c.2.1) =
        ((fields_ordered m).enum.filter
          (fun p => (assocGet fmap p.2).isSome)).map Prod.fst) ∧
      (∀ op i v, (op, i, v) ∈ changes ↔
        ∃ name opv, (fields_ordered m).get? i = some name ∧
          assocGet fmap name = some opv ∧
          op = opv.1 ∧ v = coerceUpdateValue opv.2)) := by
  have hgo := parse_fields_go_error_iff data []
  constructor
  · cases hp : parse_fields data with
    | error e =>
      have he : e = .valueError := hgo.2 e hp
      subst he
      constructor
      · intro _
        exact hgo.1.mp ⟨.valueError, hp⟩
      · intro _
        simp [make_changes_struct, hp]
    | ok fmap =>
      constructor
      · intro hmcs
        simp [make_changes_struct, hp] at hmcs
      · intro hex
        obtain ⟨e, he⟩ := hgo.1.mpr hex
        have he' : parse_fields data = .error e := he
        rw [hp] at he'
        cases he'
  · intro fmap changes hp hmcs
    have hch : changes = (fields_ordered m).enum.filterMap
        (fun p => (assocGet fmap p.2).map
          (fun op => (op.1, p.1, coerceUpdateValue op.2))) := by
      simp [make_changes_struct, hp] at hmcs
      exact hmcs.symm
    subst hch
    constructor
    · exact filterMap_changes_positions fmap _
    · intro op i v
      rw [List.mem_filterMap]
      constructor
      · rintro ⟨⟨j, name⟩, hj, hf⟩
        dsimp only at hf
        cases ha : assocGet fmap name with
        | none => rw [ha] at hf; cases hf
        | some opv =>
          rw [ha] at hf
          obtain ⟨h1, h2, h3⟩ : opv.1 = op ∧ j = i ∧ coerceUpdateValue opv.2 = v := by
            injection hf with hf
            injection hf with h1 hf
            injection hf with h2 h3
            exact ⟨h1, h2, h3⟩
          subst h2
          exact ⟨name, opv, List.mk_mem_enum_iff_get?.mp hj, ha, h1.symm, h3.symm⟩
      · rintro ⟨name, opv, hget, ha, rfl, rfl⟩
        exact ⟨(i, name), List.mk_mem_enum_iff_get?.mpr hget, by simp [ha]⟩

/-- C4 witness: an unknown modifier raises `ValueError`; `b__add` on the
two-field model emits the single instruction `('+', 1, 2)` at `b`'s 0-based
index 1. -/
theorem C4_amended_witness :
    make_changes_struct demoModelA.1 [("n__frob", .pyint 1)] = .error .valueError ∧
    ("+", 1, PyVal.pyint 2) ∈
      ([("+", (1 : Nat), PyVal.pyint 2)] : List (String × Nat × PyVal)) :=
  ⟨(C4_amended demoModelA.1 [("n__frob", .pyint 1)]).1.mpr
     ⟨("n__frob", .pyint 1), List.mem_cons_self _ _, rfl⟩,
   (((C4_amended demoModelA.1 [("b__add", .pyint 2)]).2
       [("b", ("+", .pyint 2))] [("+", 1, .pyint 2)] rfl rfl).2 "+" 1 (.pyint 2)).mpr
     ⟨"b", ("+", .pyint 2), rfl, rfl, rfl, rfl⟩⟩

/-- The creation counters of a model's fields, in `_fields_ordered` order. -/
def orderedFieldCounters (m : ModelSchema) : List Nat :=
  (List.insertionSort
    (fun p q : String × BField => p.2.creationCounter ≤ q.2.creationCounter)
    m.fields).map (fun p => p.2.creationCounter)

instance : IsTotal (String × BField)
    (fun p q => p.2.creationCounter ≤ q.2.creationCounter) :=
  ⟨fun a b => Nat.le_total a.2.creationCounter b.2.creationCounter⟩

instance : IsTrans (String × BField)
    (fun p q => p.2.creationCounter ≤ q.2.creationCounter) :=
  ⟨fun _ _ _ hab hbc => le_trans hab hbc⟩

/-- Field declaration keeps the declared names, in order. -/
theorem declareFields_map_fst :
    ∀ (decls : List (String × FieldDecl)) (c : Nat),
      ((declareFields c decls).1).map Prod.fst = decls.map Prod.fst
  | [], _ => rfl
  | (name, d) :: rest, c => by
    simp [declareFields, mkBField, declareFields_map_fst rest (c + 1)]

/-- Field declaration allocates the consecutive counters `c, c+1, …`. -/
theorem declareFields_counters :
    ∀ (decls : List (String × FieldDecl)) (c : Nat),
      ((declareFields c decls).1).map (fun p => p.2.creationCounter) =
        List.range' c decls.length
  | [], _ => rfl
  | (name, d) :: rest, c => by
    simp [declareFields, mkBField, List.range'_succ,
      declareFields_counters rest (c + 1)]

/-- `Option.isSome` of a list lookup is exactly the in-range condition. -/
theorem get?_isSome_iff {α : Type} (l : List α) (n : Nat) :
    (l.get? n).isSome = true ↔ n < l.length := by
  rw [Option.isSome_iff_ne_none, Ne, List.get?_eq_none]
  omega

/-- C3.  For any model produced by sequential field declaration (with
distinct attribute names), `_fields_ordered` is a permutation of the keys
of `_fields`, has no duplicates, is sorted strictly by ascending creation
counter, and its 1-based positions are exactly the contiguous range
`1..N`. -/
theorem C3_fields_ordered_invariant (decls : List (String × FieldDecl))
    (c0 c1 : Nat) (m : ModelSchema) (hm : declareModel decls c0 = (m, c1))
    (hnodup : (decls.map Prod.fst).Nodup) :
    (fields_ordered m).Perm (m.fields.map Prod.fst) ∧
    (fields_ordered m).Nodup ∧
    List.Pairwise (· < ·) (orderedFieldCounters m) ∧
    (∀ k, 1 ≤ k →
      (k ≤ m.fields.length ↔ (field_name m k).isSome = true)) := by
  have hmf : m.fields = (declareFields c0 decls).1 := by
    unfold declareModel at hm
    cases hm
    rfl
  have hperm := List.perm_insertionSort
    (fun p q : String × BField => p.2.creationCounter ≤ q.2.creationCounter)
    m.fields
  have hperm_names : (fields_ordered m).Perm (m.fields.map Prod.fst) :=
    hperm.map Prod.fst
  refine ⟨hperm_names, ?_, ?_, ?_⟩
  · refine hperm_names.nodup_iff.mpr ?_
    rw [hmf, declareFields_map_fst]
    exact hnodup
  · have hsorted := List.sorted_insertionSort
      (fun p q : String × BField => p.2.creationCounter ≤ q.2.creationCounter)
      m.fields
    have hple : List.Pairwise (· ≤ ·) (orderedFieldCounters m) :=
      List.pairwise_map.mpr hsorted
    have hnd : (orderedFieldCounters m).Nodup := by
      refine ((hperm.map (fun p => p.2.creationCounter)).nodup_iff).mpr ?_
      rw [hmf, declareFields_counters]
      exact List.nodup_range' c0 decls.length
    exact (hple.and hnd).imp (fun h => lt_of_le_of_ne h.1 h.2)
  · intro k hk
    have hlen : (fields_ordered m).length = m.fields.length := by
      have h1 := hperm_names.length_eq
      rw [h1, List.length_map]
    rw [field_name, get?_isSome_iff, hlen]
    omega

/-- C3 witness: two fields declared from counter 5 (a model that is not the
first in its process). -/
theorem C3_witness :
    (fields_ordered (declareModel
        [("a", { kind := .base }), ("b", { kind := .base })] 5).1).Perm
      ((declareModel [("a", { kind := .base }), ("b", { kind := .base })] 5).1.fields.map
        Prod.fst) ∧
    (fields_ordered (declareModel
        [("a", { kind := .base }), ("b", { kind := .base })] 5).1).Nodup ∧
    List.Pairwise (· < ·) (orderedFieldCounters (declareModel
        [("a", { kind := .base }), ("b", { kind := .base })] 5).1) ∧
    (∀ k, 1 ≤ k →
      (k ≤ (declareModel [("a", { kind := .base }), ("b", { kind := .base })] 5).1.fields.length ↔
        (field_name (declareModel
          [("a", { kind := .base }), ("b", { kind := .base })] 5).1 k).isSome = true)) :=
  C3_fields_ordered_invariant
    [("a", { kind := .base }), ("b", { kind := .base })] 5
    (declareModel [("a", { kind := .base }), ("b", { kind := .base })] 5).2
    (declareModel [("a", { kind := .base }), ("b", { kind := .base })] 5).1
    rfl (by decide)

/-!  Round-trip lemmas for the storage codecs. -/

/-- Decoding inverts encoding (codepoint-granular UTF-8). -/
theorem decode_encode (s : String) : decodeUtf8 (encodeUtf8 s) = s := by
  unfold decodeUtf8 encodeUtf8
  rw [List.map_map]
  have h : (Char.ofNat ∘ Char.toNat) = id := funext fun c => Char.ofNat_toNat c
  rw [h, List.map_id]

/-- A number below `10^w` has at most `w` digits. -/
theorem digits_len_le_of_lt_pow {n w : Nat} (h : n < 10 ^ w) :
    (Nat.digits 10 n).length ≤ w := by
  rcases Nat.eq_zero_or_pos n with rfl | hn
  · simp
  · by_contra hlt
    push_neg at hlt
    have h1 : 10 ^ (Nat.digits 10 n).length ≤ 10 * n :=
      Nat.base_pow_length_digits_le 10 n (by norm_num) hn.ne'
    have h2 : 10 ^ (w + 1) ≤ 10 ^ (Nat.digits 10 n).length :=
      Nat.pow_le_pow_right (by norm_num) hlt
    have h3 : 10 * 10 ^ w ≤ 10 * n := by
      calc 10 * 10 ^ w = 10 ^ (w + 1) := by ring
      _ ≤ 10 ^ (Nat.digits 10 n).length := h2
      _ ≤ 10 * n := h1
    have h4 : 10 ^ w ≤ n := Nat.le_of_mul_le_mul_left h3 (by norm_num)
    omega

/-- Horner evaluation of a most-significant-first digit list. -/
theorem digitsVal_aux :
    ∀ (l : List Nat) (a : Nat),
      List.foldl (fun x d => 10 * x + d) a l =
        a * 10 ^ l.length + Nat.ofDigits 10 l.reverse
  | [], a => by simp [Nat.ofDigits]
  | d :: t, a => by
    simp only [List.foldl_cons, List.length_cons, List.reverse_cons]
    rw [digitsVal_aux t (10 * a + d), Nat.ofDigits_append]
    simp [Nat.ofDigits]
    ring

/-- Leading zeros do not contribute to the Horner value. -/
theorem foldl_replicate_zero :
    ∀ k : Nat, List.foldl (fun x d => 10 * x + d) 0 (List.replicate k 0) = 0
  | 0 => rfl
  | k + 1 => by simpa [List.replicate_succ] using foldl_replicate_zero k

/-- Reading back a zero-padded digit list gives the number. -/
theorem digitsVal_padDigits {w n : Nat} : digitsVal (padDigits w n) = n := by
  unfold digitsVal padDigits
  rw [List.foldl_append, foldl_replicate_zero, digitsVal_aux]
  unfold natDigitsMsd
  simp [Nat.ofDigits_digits]

/-- For `n < 10^w` the zero-padded digit list has width exactly `w`. -/
theorem padDigits_length {w n : Nat} (h : n < 10 ^ w) :
    (padDigits w n).length = w := by
  unfold padDigits natDigitsMsd
  have hle : (Nat.digits 10 n).length ≤ w := digits_len_le_of_lt_pow h
  simp only [List.length_append, List.length_replicate, List.length_reverse]
  omega

/-- Every entry of a zero-padded digit list is a digit. -/
theorem padDigits_lt {w n d : Nat} (hd : d ∈ padDigits w n) : d < 10 := by
  unfold padDigits natDigitsMsd at hd
  rcases List.mem_append.mp hd with h | h
  · have := List.eq_of_mem_replicate h
    omega
  · exact Nat.digits_lt_base (by norm_num) (List.mem_reverse.mp h)

/-- Reading a fixed-width zero-padded number from the front of a byte
string recovers it and leaves the rest. -/
theorem readFixed_encNum {k n : Nat} (h : n < 10 ^ k) (rest : List Nat) :
    readFixed k (encNum k n ++ rest) = some (n, rest) := by
  have hlen : (encNum k n).length = k := by
    simp [encNum, padDigits_length h]
  unfold readFixed
  rw [List.take_left' hlen, List.drop_left' hlen]
  have hall : (encNum k n).all (fun c => 48 ≤ c && c ≤ 57) = true := by
    rw [List.all_eq_true]
    intro c hc
    simp only [encNum, List.mem_map] at hc
    obtain ⟨d, hd, rfl⟩ := hc
    have := padDigits_lt hd
    simp
    omega
  simp only [hlen, hall, Bool.and_true, decide_True, Bool.and_self, if_pos]
  have hmap : (encNum k n).map (fun c => c - 48) = padDigits k n := by
    simp only [encNum, List.map_map]
    have h2 : ((fun c => c - 48) ∘ fun d => 48 + d) = id :=
      funext fun d => by simp
    rw [h2, List.map_id]
  rw [hmap, digitsVal_padDigits]

/-- The separator reader consumes a matching byte. -/
theorem expectSep_cons (c : Nat) (rest : List Nat) : expectSep c (c :: rest) = some rest := by
  simp [expectSep]

/-- Parsing a formatted datetime recovers it: `strptime(strftime(d))` is
the identity on valid datetimes under the default format. -/
theorem strptime_strftime (d : PyDateTime) (hv : d.valid) :
    strptimeDefault (strftimeDefault d) = some d := by
  obtain ⟨y, mo, da, h, mi, s, us⟩ := d
  unfold PyDateTime.valid at hv
  simp only at hv
  obtain ⟨h1, h2, h3, h4, h5, h6, h7, h8, h9, h10⟩ := hv
  have p4 : (10 : Nat) ^ 4 = 10000 := by norm_num
  have p2 : (10 : Nat) ^ 2 = 100 := by norm_num
  have p6 : (10 : Nat) ^ 6 = 1000000 := by norm_num
  have hy : y < 10 ^ 4 := by omega
  have hmo : mo < 10 ^ 2 := by omega
  have hda : da < 10 ^ 2 := by omega
  have hh : h < 10 ^ 2 := by omega
  have hmi : mi < 10 ^ 2 := by omega
  have hs : s < 10 ^ 2 := by omega
  have hus : us < 10 ^ 6 := by omega
  simp only [strptimeDefault, strftimeDefault]
  rw [readFixed_encNum hy]
  simp only [Option.bind_eq_bind, Option.some_bind, expectSep_cons]
  rw [readFixed_encNum hmo]
  simp only [Option.some_bind, expectSep_cons]
  rw [readFixed_encNum hda]
  simp only [Option.some_bind, expectSep_cons]
  rw [readFixed_encNum hh]
  simp only [Option.some_bind, expectSep_cons]
  rw [readFixed_encNum hmi]
  simp only [Option.some_bind, expectSep_cons]
  rw [readFixed_encNum hs]
  simp only [Option.some_bind, expectSep_cons]
  rw [show encNum 6 us = encNum 6 us ++ [] from (List.append_nil _).symm,
    readFixed_encNum hus]
  simp only [Option.some_bind, List.isEmpty_nil, if_true]
  rw [if_pos ⟨h1, h2, h3, h4, h5, h6, h7, h8, h9, h10⟩]

/-- `to_python` after `to_db`: the storage round trip of one field. -/
def roundtrips (k : FieldKind) (v : PyVal) : Prop :=
  (field_to_db_kind k v).bind (field_to_python_kind k) = .ok v

/-- A `ListAsDictField` of non-required 32-bit integers (as `run.py`'s
`block_ids`/`rubric_ids`). -/
def demoListAsDictField : BField :=
  { kind := .listAsDictField (.num32 INT32_MIN INT32_MAX) false }

/-- A plain `JsonField`. -/
def demoJsonField : BField :=
  { kind := .jsonField }

/-- C1 counterexample.  Two validate-passing values whose storage round
trip is not the identity: a `ListAsDictField` list with a duplicate
(`[1,1]` stores as `{1: True}` and decodes to `[1]`), and a `JsonField`
tuple (`(1,2)` serializes to `[1,2]` and decodes to the list `[1,2]`). -/
theorem C1_counterexample :
    field_validate demoListAsDictField (.pylist [.pyint 1, .pyint 1]) = .ok () ∧
    (field_to_db demoListAsDictField (.pylist [.pyint 1, .pyint 1])).bind
      (field_to_python demoListAsDictField) = .ok (.pylist [.pyint 1]) ∧
    PyVal.pylist [.pyint 1] ≠ PyVal.pylist [.pyint 1, .pyint 1] ∧
    field_validate demoJsonField (.pytuple [.pyint 1, .pyint 2]) = .ok () ∧
    (field_to_db demoJsonField (.pytuple [.pyint 1, .pyint 2])).bind
      (field_to_python demoJsonField) = .ok (.pylist [.pyint 1, .pyint 2]) ∧
    PyVal.pylist [.pyint 1, .pyint 2] ≠ PyVal.pytuple [.pyint 1, .pyint 2] :=
  ⟨rfl, rfl, by simp, rfl, rfl, by simp⟩

/-- C1 amended.  For the field types whose storage codec is defined in the
repository — `StringField` on text, `BytesField`, `Num32Field`/`Num64Field`
on integers, `BooleanField` on booleans, `DecimalField` on decimals,
`DateTimeField` on valid datetimes (its fixed default format), `DictField`
and `ListField` — `to_python(to_db(v)) == v`; `ListAsDictField` and
`JsonField`-on-tuples are excluded per the counterexample. -/
theorem C1_roundtrip_amended :
    (∀ regex maxL minL (s : String), roundtrips (.stringField regex maxL minL) (.ustr s)) ∧
    (∀ regex maxL minL (bs : List Nat), roundtrips (.bytesField regex maxL minL) (.bytes bs)) ∧
    (∀ lo hi (n : Int), roundtrips (.num32 lo hi) (.pyint n)) ∧
    (∀ lo hi (n : Int), roundtrips (.num64 lo hi) (.pyint n)) ∧
    (∀ b : Bool, roundtrips .booleanField (.pybool b)) ∧
    (∀ s : String, roundtrips .decimalField (.pydecimal s)) ∧
    (∀ d : PyDateTime, d.valid → roundtrips .datetimeField (.pydatetime d)) ∧
    (∀ kvs, roundtrips .dictField (.pydict kvs)) ∧
    (∀ elemKind elemRequired (xs : List PyVal),
      roundtrips (.listField elemKind elemRequired) (.pylist xs)) := by
  refine ⟨?_, ?_, ?_, ?_, ?_, ?_, ?_, ?_, ?_⟩
  · intro regex maxL minL s
    unfold roundtrips
    by_cases hs : s = ""
    · subst hs
      rfl
    · have hd : s.data ≠ [] := by
        intro hdata
        apply hs
        cases s
        simp at hdata
        rw [hdata]
      have henc : encodeUtf8 s ≠ [] := by
        unfold encodeUtf8
        simpa using hd
      simp [field_to_db_kind, field_to_python_kind, Except.bind, pyTruthy, hs, henc,
        List.isEmpty_eq_true, decode_encode]
  · intro regex maxL minL bs
    rfl
  · intro lo hi n
    unfold roundtrips
    by_cases hn : n = 0
    · subst hn
      rfl
    · simp [field_to_db_kind, field_to_python_kind, Except.bind, pyTruthy, pyIntOf, hn,
        Except.map]
  · intro lo hi n
    unfold roundtrips
    by_cases hn : n = 0
    · subst hn
      rfl
    · simp [field_to_db_kind, field_to_python_kind, Except.bind, pyTruthy, pyIntOf, hn,
        Except.map]
  · intro b
    cases b <;> rfl
  · intro s
    unfold roundtrips
    simp [field_to_db_kind, field_to_python_kind, Except.bind, pyStrOf, pyDecimalOf,
      Except.map, decode_encode]
  · intro d hv
    unfold roundtrips
    have hne : strftimeDefault d ≠ [] := by
      unfold strftimeDefault
      simp
    simp [field_to_db_kind, field_to_python_kind, Except.bind, pyTruthy,
      List.isEmpty_eq_true, hne, strptime_strftime d hv]
  · intro kvs
    rfl
  · intro elemKind elemRequired xs
    rfl

/-- C1 witness: concrete instances of each round trip with validity
hypotheses discharged. -/
theorem C1_roundtrip_witness :
    roundtrips (.stringField Option.none Option.none Option.none) (.ustr "ab") ∧
    roundtrips (.num32 INT32_MIN INT32_MAX) (.pyint 7) ∧
    roundtrips .booleanField (.pybool true) ∧
    roundtrips .decimalField (.pydecimal "1.50") ∧
    roundtrips .datetimeField (.pydatetime ⟨2020, 12, 31, 23, 59, 59, 999999⟩) :=
  ⟨C1_roundtrip_amended.1 Option.none Option.none Option.none "ab",
   C1_roundtrip_amended.2.2.1 INT32_MIN INT32_MAX 7,
   C1_roundtrip_amended.2.2.2.2.1 true,
   C1_roundtrip_amended.2.2.2.2.2.1 "1.50",
   C1_roundtrip_amended.2.2.2.2.2.2.1 ⟨2020, 12, 31, 23, 59, 59, 999999⟩ (by decide)⟩
